import Mathlib

/-!
Shallow embedding of `src/oct_conv/octConvLayers.py` (SRCNN-OctConv).

A Keras tensor is modelled as a `FeatureMap`: spatial shape metadata plus a
total data function indexed by (row, column, channel).  The batch dimension is
elided: every primitive used by the layers (Conv2D, AveragePooling2D,
UpSampling2D, add) acts identically and independently on each batch element,
and none of the claims mention the batch axis.  Values are exact rationals in
place of float32.  Channel counts are `Int` because the Python code computes
them with ordinary integer arithmetic that can go negative (`filters -
int(alpha * filters)` for alpha > 1).

The Keras primitives the layers compose are embedded concretely with their
default hyperparameters as used by the source file:
  - `Conv2D`: stride (1,1) (the source never passes strides to Conv2D),
    'same' or 'valid' padding, dilation, optional bias, pointwise activation;
    learned weights are a parameter of the embedding since Keras initialises
    them externally (he_normal).
  - `AveragePooling2D()`: pool size (2,2), strides (2,2), 'valid' padding.
  - `UpSampling2D(interpolation="nearest")`: size (2,2).
  - `add`: elementwise sum, `none` on shape mismatch (Keras raises).
`int(...)` on a nonnegative/negative float truncates toward zero; `pyInt`
models it on rationals.
-/

/-- A (batch-elided) Keras tensor: spatial shape, channel count, and data. -/
structure FeatureMap where
  height : ℕ
  width : ℕ
  channels : ℤ
  data : ℕ → ℕ → ℕ → ℚ

/-- Keras padding mode for convolutions. -/
inductive Padding where
  | same : Padding
  | valid : Padding
deriving DecidableEq

/-- Convolution kernel weights, indexed by (kernel row, kernel col,
input channel, output channel). -/
abbrev Kernel := ℕ → ℕ → ℕ → ℕ → ℚ

/-- A `keras.layers.Conv2D` instance as configured by this repository:
stride is always the Conv2D default (1,1). -/
structure Conv2D where
  filters : ℤ
  kernel_size : ℕ × ℕ
  padding : Padding
  dilation : ℕ × ℕ
  use_bias : Bool
  bias : ℕ → ℚ
  weights : Kernel
  activation : ℚ → ℚ

/-- Python `int(q)`: truncation toward zero. -/
def pyInt (q : ℚ) : ℤ := if q < 0 then q.ceil else q.floor

theorem pyInt_eq_floor (q : ℚ) (h : 0 ≤ q) : pyInt q = ⌊q⌋ := by
  rw [pyInt, if_neg (not_lt.2 h), Rat.floor_def', ← Rat.floor_def]

/-- The default `relu` activation. -/
def relu (x : ℚ) : ℚ := max 0 x

/-- Zero-padded lookup into a feature map at possibly out-of-range
integer coordinates. -/
def getPad (x : FeatureMap) (i j : ℤ) (c : ℕ) : ℚ :=
  if 0 ≤ i ∧ i < (x.height : ℤ) ∧ 0 ≤ j ∧ j < (x.width : ℤ) then
    x.data i.toNat j.toNat c
  else 0

/-- Forward pass of a stride-(1,1) `Conv2D`.  With 'same' padding TF pads
`effK - 1` zeros in total per axis, `(effK - 1) / 2` of them at the
beginning; with 'valid' padding the output shrinks by `effK - 1`. -/
def Conv2D.apply (c : Conv2D) (x : FeatureMap) : FeatureMap :=
  let k1 := c.kernel_size.1
  let k2 := c.kernel_size.2
  let d1 := c.dilation.1
  let d2 := c.dilation.2
  let effK1 := d1 * (k1 - 1) + 1
  let effK2 := d2 * (k2 - 1) + 1
  let outH : ℕ := if c.padding = Padding.same then x.height else x.height - (effK1 - 1)
  let outW : ℕ := if c.padding = Padding.same then x.width else x.width - (effK2 - 1)
  let padT : ℕ := if c.padding = Padding.same then (effK1 - 1) / 2 else 0
  let padL : ℕ := if c.padding = Padding.same then (effK2 - 1) / 2 else 0
  { height := outH
    width := outW
    channels := c.filters
    data := fun h w co =>
      c.activation
        ((if c.use_bias then c.bias co else 0) +
          ∑ kh ∈ Finset.range k1, ∑ kw ∈ Finset.range k2,
            ∑ ci ∈ Finset.range x.channels.toNat,
              c.weights kh kw ci co *
                getPad x ((h : ℤ) + d1 * kh - padT) ((w : ℤ) + d2 * kw - padL) ci) }

/-- `keras.layers.AveragePooling2D()` with all defaults: 2x2 windows,
stride 2, 'valid' padding — each output cell is the mean of a 2x2 block,
spatial dimensions are halved (floor). -/
def avgPool2 (x : FeatureMap) : FeatureMap :=
  { height := x.height / 2
    width := x.width / 2
    channels := x.channels
    data := fun h w c =>
      (x.data (2 * h) (2 * w) c + x.data (2 * h) (2 * w + 1) c +
       x.data (2 * h + 1) (2 * w) c + x.data (2 * h + 1) (2 * w + 1) c) / 4 }

/-- `keras.layers.UpSampling2D(interpolation="nearest")` with default size
(2,2): nearest-neighbour 2x upsampling. -/
def upSample2 (x : FeatureMap) : FeatureMap :=
  { height := 2 * x.height
    width := 2 * x.width
    channels := x.channels
    data := fun h w c => x.data (h / 2) (w / 2) c }

/-- `keras.layers.add([a, b])`: elementwise sum; Keras raises on a static
shape mismatch, modelled as `none`. -/
def addFM (a b : FeatureMap) : Option FeatureMap :=
  if a.height = b.height ∧ a.width = b.width ∧ a.channels = b.channels then
    some { height := a.height
           width := a.width
           channels := a.channels
           data := fun h w c => a.data h w c + b.data h w c }
  else none

/-- `OctConvInitialLayer`: owned state fixed by `__init__`. -/
structure OctConvInitialLayer where
  strides : ℕ × ℕ
  conv2d_high_high : Conv2D
  conv2d_high_low : Conv2D

/-- `OctConvInitialLayer.__init__`: resolves `dilation=None` to (1,1),
computes `high_low_filters = int(alpha * filters)` and
`high_high_filters = filters - high_low_filters`, and builds the two owned
convolutions.  Keras initialises the weights externally, so they are
parameters here. -/
def OctConvInitialLayer.init (filters : ℕ) (kernel_size : ℕ × ℕ)
    (strides : ℕ × ℕ) (alpha : ℚ) (padding : Padding)
    (dilation : Option (ℕ × ℕ)) (bias : Bool) (activation : ℚ → ℚ)
    (wHH wHL : Kernel) (bHH bHL : ℕ → ℚ) : OctConvInitialLayer :=
  let dilation := dilation.getD (1, 1)
  let high_low_filters : ℤ := pyInt (alpha * filters)
  let high_high_filters : ℤ := (filters : ℤ) - high_low_filters
  { strides := strides
    conv2d_high_high :=
      { filters := high_high_filters, kernel_size := kernel_size
        padding := padding, dilation := dilation, use_bias := bias
        bias := bHH, weights := wHH, activation := activation }
    conv2d_high_low :=
      { filters := high_low_filters, kernel_size := kernel_size
        padding := padding, dilation := dilation, use_bias := bias
        bias := bHL, weights := wHL, activation := activation } }

/-- `OctConvInitialLayer.call`: optional stride pre-pool (keyed on
`strides[0] > 1`), high path by same-resolution conv, low path by
average-pool then conv; returns `(x_low, x_high)`. -/
def OctConvInitialLayer.call (l : OctConvInitialLayer) (inputs : FeatureMap) :
    FeatureMap × FeatureMap :=
  let inputs := if 1 < l.strides.1 then avgPool2 inputs else inputs
  let x_high := l.conv2d_high_high.apply inputs
  let x_high_low := avgPool2 inputs
  let x_low := l.conv2d_high_low.apply x_high_low
  (x_low, x_high)

/-- `OctConvBlockLayer`: owned state fixed by `__init__`. -/
structure OctConvBlockLayer where
  strides : ℕ × ℕ
  conv2d_high_high : Conv2D
  conv2d_low_high : Conv2D
  conv2d_low_low : Conv2D
  conv2d_high_low : Conv2D

/-- `OctConvBlockLayer.__init__`: resolves `dilation=None` to (1,1),
computes `low_low_filters = high_low_filters = int(alpha * filters)` and
`high_high_filters = low_high_filters = filters - low_low_filters`, and
builds the four owned convolutions. -/
def OctConvBlockLayer.init (filters : ℕ) (kernel_size : ℕ × ℕ)
    (strides : ℕ × ℕ) (alpha : ℚ) (padding : Padding)
    (dilation : Option (ℕ × ℕ)) (bias : Bool) (activation : ℚ → ℚ)
    (wHH wLH wLL wHL : Kernel) (bHH bLH bLL bHL : ℕ → ℚ) :
    OctConvBlockLayer :=
  let dilation := dilation.getD (1, 1)
  let low_low_filters : ℤ := pyInt (alpha * filters)
  let high_low_filters : ℤ := low_low_filters
  let high_high_filters : ℤ := (filters : ℤ) - low_low_filters
  let low_high_filters : ℤ := high_high_filters
  { strides := strides
    conv2d_high_high :=
      { filters := high_high_filters, kernel_size := kernel_size
        padding := padding, dilation := dilation, use_bias := bias
        bias := bHH, weights := wHH, activation := activation }
    conv2d_low_high :=
      { filters := low_high_filters, kernel_size := kernel_size
        padding := padding, dilation := dilation, use_bias := bias
        bias := bLH, weights := wLH, activation := activation }
    conv2d_low_low :=
      { filters := low_low_filters, kernel_size := kernel_size
        padding := padding, dilation := dilation, use_bias := bias
        bias := bLL, weights := wLL, activation := activation }
    conv2d_high_low :=
      { filters := high_low_filters, kernel_size := kernel_size
        padding := padding, dilation := dilation, use_bias := bias
        bias := bHL, weights := wHL, activation := activation } }

/-- `OctConvBlockLayer.call`: unpacks `inputs[0] -> x_low`,
`inputs[1] -> x_high`, applies the optional stride pre-pool to both, then
the four convolution paths, and merges with elementwise `add`; returns
`(y_low, y_high)`. -/
def OctConvBlockLayer.call (l : OctConvBlockLayer)
    (inputs : FeatureMap × FeatureMap) : Option (FeatureMap × FeatureMap) :=
  let x_low := inputs.1
  let x_high := inputs.2
  let x_high := if 1 < l.strides.1 then avgPool2 x_high else x_high
  let x_low := if 1 < l.strides.1 then avgPool2 x_low else x_low
  let x_high_high := l.conv2d_high_high.apply x_high
  let x_low_high := upSample2 (l.conv2d_low_high.apply x_low)
  let x_low_low := l.conv2d_low_low.apply x_low
  let x_high_low := l.conv2d_high_low.apply (avgPool2 x_high)
  match addFM x_high_high x_low_high with
  | none => none
  | some y_high =>
    match addFM x_low_low x_high_low with
    | none => none
    | some y_low => some (y_low, y_high)

/-- `OctConvFinalLayer`: owned state fixed by `__init__`. -/
structure OctConvFinalLayer where
  strides : ℕ × ℕ
  conv2d_high_high : Conv2D
  conv2d_low_high : Conv2D

/-- `OctConvFinalLayer.__init__`: no alpha — both owned convolutions get the
full `filters` count. -/
def OctConvFinalLayer.init (filters : ℕ) (kernel_size : ℕ × ℕ)
    (strides : ℕ × ℕ) (padding : Padding) (dilation : Option (ℕ × ℕ))
    (bias : Bool) (activation : ℚ → ℚ) (wHH wLH : Kernel)
    (bHH bLH : ℕ → ℚ) : OctConvFinalLayer :=
  let dilation := dilation.getD (1, 1)
  { strides := strides
    conv2d_high_high :=
      { filters := (filters : ℤ), kernel_size := kernel_size
        padding := padding, dilation := dilation, use_bias := bias
        bias := bHH, weights := wHH, activation := activation }
    conv2d_low_high :=
      { filters := (filters : ℤ), kernel_size := kernel_size
        padding := padding, dilation := dilation, use_bias := bias
        bias := bLH, weights := wLH, activation := activation } }

/-- `OctConvFinalLayer.call`: unpacks `inputs[0] -> x_low`,
`inputs[1] -> x_high`, optional stride pre-pool on both, then merges the
same-resolution conv of high with the upsampled conv of low. -/
def OctConvFinalLayer.call (l : OctConvFinalLayer)
    (inputs : FeatureMap × FeatureMap) : Option FeatureMap :=
  let x_low := inputs.1
  let x_high := inputs.2
  let x_high := if 1 < l.strides.1 then avgPool2 x_high else x_high
  let x_low := if 1 < l.strides.1 then avgPool2 x_low else x_low
  let x_high_high := l.conv2d_high_high.apply x_high
  let x_low_high := upSample2 (l.conv2d_low_high.apply x_low)
  addFM x_high_high x_low_high

/-! Shape bookkeeping lemmas for the embedded primitives. -/

@[simp]
theorem Conv2D.apply_channels (c : Conv2D) (x : FeatureMap) :
    (c.apply x).channels = c.filters := rfl

theorem Conv2D.apply_height_same (c : Conv2D) (x : FeatureMap)
    (h : c.padding = Padding.same) : (c.apply x).height = x.height := by
  simp [Conv2D.apply, h]

theorem Conv2D.apply_width_same (c : Conv2D) (x : FeatureMap)
    (h : c.padding = Padding.same) : (c.apply x).width = x.width := by
  simp [Conv2D.apply, h]

@[simp]
theorem avgPool2_height (x : FeatureMap) : (avgPool2 x).height = x.height / 2 := rfl

@[simp]
theorem avgPool2_width (x : FeatureMap) : (avgPool2 x).width = x.width / 2 := rfl

@[simp]
theorem avgPool2_channels (x : FeatureMap) : (avgPool2 x).channels = x.channels := rfl

@[simp]
theorem upSample2_height (x : FeatureMap) : (upSample2 x).height = 2 * x.height := rfl

@[simp]
theorem upSample2_width (x : FeatureMap) : (upSample2 x).width = 2 * x.width := rfl

@[simp]
theorem upSample2_channels (x : FeatureMap) : (upSample2 x).channels = x.channels := rfl

theorem addFM_eq_some (a b : FeatureMap) (h1 : a.height = b.height)
    (h2 : a.width = b.width) (h3 : a.channels = b.channels) :
    addFM a b =
      some { height := a.height, width := a.width, channels := a.channels
             data := fun h w c => a.data h w c + b.data h w c } := by
  simp [addFM, h1, h2, h3]

/-! Structural descriptions of the three `call` methods in the stride-1,
'same'-padding regime, shared by several claim theorems below. -/

theorem initial_call_stride1 (l : OctConvInitialLayer)
    (x : FeatureMap) (hs : l.strides.1 = 1) :
    l.call x = (l.conv2d_high_low.apply (avgPool2 x), l.conv2d_high_high.apply x) := by
  simp [OctConvInitialLayer.call, hs]

theorem block_call_stride1 (l : OctConvBlockLayer)
    (low high : FeatureMap) (hs : l.strides.1 = 1)
    (hp1 : l.conv2d_high_high.padding = Padding.same)
    (hp2 : l.conv2d_low_high.padding = Padding.same)
    (hp3 : l.conv2d_low_low.padding = Padding.same)
    (hp4 : l.conv2d_high_low.padding = Padding.same)
    (hcH : l.conv2d_high_high.filters = l.conv2d_low_high.filters)
    (hcL : l.conv2d_low_low.filters = l.conv2d_high_low.filters)
    (hh : high.height = 2 * low.height) (hw : high.width = 2 * low.width) :
    l.call (low, high) =
      some
        ({ height := low.height, width := low.width
           channels := l.conv2d_low_low.filters
           data := fun h w c =>
             (l.conv2d_low_low.apply low).data h w c +
               (l.conv2d_high_low.apply (avgPool2 high)).data h w c },
         { height := high.height, width := high.width
           channels := l.conv2d_high_high.filters
           data := fun h w c =>
             (l.conv2d_high_high.apply high).data h w c +
               (upSample2 (l.conv2d_low_high.apply low)).data h w c }) := by
  have eH : addFM (l.conv2d_high_high.apply high)
      (upSample2 (l.conv2d_low_high.apply low)) =
      some { height := (l.conv2d_high_high.apply high).height
             width := (l.conv2d_high_high.apply high).width
             channels := (l.conv2d_high_high.apply high).channels
             data := fun h w c =>
               (l.conv2d_high_high.apply high).data h w c +
                 (upSample2 (l.conv2d_low_high.apply low)).data h w c } := by
    refine addFM_eq_some _ _ ?_ ?_ ?_ <;>
      simp [Conv2D.apply_height_same _ _ hp1, Conv2D.apply_width_same _ _ hp1,
        Conv2D.apply_height_same _ _ hp2, Conv2D.apply_width_same _ _ hp2,
        hh, hw, hcH]
  have eL : addFM (l.conv2d_low_low.apply low)
      (l.conv2d_high_low.apply (avgPool2 high)) =
      some { height := (l.conv2d_low_low.apply low).height
             width := (l.conv2d_low_low.apply low).width
             channels := (l.conv2d_low_low.apply low).channels
             data := fun h w c =>
               (l.conv2d_low_low.apply low).data h w c +
                 (l.conv2d_high_low.apply (avgPool2 high)).data h w c } := by
    refine addFM_eq_some _ _ ?_ ?_ ?_ <;>
      simp [Conv2D.apply_height_same _ _ hp3, Conv2D.apply_width_same _ _ hp3,
        Conv2D.apply_height_same _ _ hp4, Conv2D.apply_width_same _ _ hp4,
        hh, hw, hcL]
  simp only [OctConvBlockLayer.call, hs]
  norm_num [eH, eL, Conv2D.apply_height_same _ _ hp1,
    Conv2D.apply_width_same _ _ hp1, Conv2D.apply_height_same _ _ hp3,
    Conv2D.apply_width_same _ _ hp3]

theorem final_call_stride1 (l : OctConvFinalLayer)
    (low high : FeatureMap) (hs : l.strides.1 = 1)
    (hp1 : l.conv2d_high_high.padding = Padding.same)
    (hp2 : l.conv2d_low_high.padding = Padding.same)
    (hc : l.conv2d_high_high.filters = l.conv2d_low_high.filters)
    (hh : high.height = 2 * low.height) (hw : high.width = 2 * low.width) :
    l.call (low, high) =
      some { height := high.height, width := high.width
             channels := l.conv2d_high_high.filters
             data := fun h w c =>
               (l.conv2d_high_high.apply high).data h w c +
                 (upSample2 (l.conv2d_low_high.apply low)).data h w c } := by
  have eH : addFM (l.conv2d_high_high.apply high)
      (upSample2 (l.conv2d_low_high.apply low)) =
      some { height := (l.conv2d_high_high.apply high).height
             width := (l.conv2d_high_high.apply high).width
             channels := (l.conv2d_high_high.apply high).channels
             data := fun h w c =>
               (l.conv2d_high_high.apply high).data h w c +
                 (upSample2 (l.conv2d_low_high.apply low)).data h w c } := by
    refine addFM_eq_some _ _ ?_ ?_ ?_ <;>
      simp [Conv2D.apply_height_same _ _ hp1, Conv2D.apply_width_same _ _ hp1,
        Conv2D.apply_height_same _ _ hp2, Conv2D.apply_width_same _ _ hp2,
        hh, hw, hc]
  simp only [OctConvFinalLayer.call, hs]
  norm_num [eH, Conv2D.apply_height_same _ _ hp1, Conv2D.apply_width_same _ _ hp1]

/-! The dual-pathway resolution invariant and its preservation. -/

/-- The PathwayPair resolution invariant: the high pathway has exactly twice
the spatial resolution of the low pathway (pair order is `(low, high)`). -/
def PairInv (p : FeatureMap × FeatureMap) : Prop :=
  p.2.height = 2 * p.1.height ∧ p.2.width = 2 * p.1.width

/-- Well-formedness of a block as the repository configures it: stride 1,
'same' padding on all four convolutions, and the coupled filter partition
(both high-target paths share one count, both low-target paths the other). -/
def BlockWF (b : OctConvBlockLayer) : Prop :=
  b.strides.1 = 1 ∧
  b.conv2d_high_high.padding = Padding.same ∧
  b.conv2d_low_high.padding = Padding.same ∧
  b.conv2d_low_low.padding = Padding.same ∧
  b.conv2d_high_low.padding = Padding.same ∧
  b.conv2d_high_high.filters = b.conv2d_low_high.filters ∧
  b.conv2d_low_low.filters = b.conv2d_high_low.filters

/-- Feeding a pathway pair through a sequence of blocks, propagating the
Keras shape failure of any block. -/
def runBlocks (bs : List OctConvBlockLayer) (p : FeatureMap × FeatureMap) :
    Option (FeatureMap × FeatureMap) :=
  match bs with
  | [] => some p
  | b :: rest =>
    match b.call p with
    | none => none
    | some q => runBlocks rest q

theorem OctConvBlockLayer.call_preserves_inv (b : OctConvBlockLayer)
    (p : FeatureMap × FeatureMap) (hwf : BlockWF b) (hp : PairInv p) :
    ∃ q, b.call p = some q ∧ PairInv q := by
  obtain ⟨hs, hp1, hp2, hp3, hp4, hcH, hcL⟩ := hwf
  obtain ⟨hh, hw⟩ := hp
  exact ⟨_, block_call_stride1 b p.1 p.2 hs hp1 hp2 hp3 hp4 hcH hcL hh hw,
    hh, hw⟩

theorem runBlocks_preserves_inv (bs : List OctConvBlockLayer)
    (p : FeatureMap × FeatureMap) (hwf : ∀ b ∈ bs, BlockWF b) (hp : PairInv p) :
    ∃ q, runBlocks bs p = some q ∧ PairInv q := by
  induction bs generalizing p with
  | nil => exact ⟨p, rfl, hp⟩
  | cons b rest ih =>
    obtain ⟨q, hq, hinv⟩ :=
      OctConvBlockLayer.call_preserves_inv b p (hwf b (by simp)) hp
    obtain ⟨r, hr, hinvr⟩ := ih q (fun b' hb' => hwf b' (by simp [hb'])) hinv
    exact ⟨r, by simp [runBlocks, hq, hr], hinvr⟩

theorem OctConvInitialLayer.call_establishes_inv (l : OctConvInitialLayer)
    (x : FeatureMap) (hp1 : l.conv2d_high_high.padding = Padding.same)
    (hp2 : l.conv2d_high_low.padding = Padding.same)
    (hH : 2 ∣ (if 1 < l.strides.1 then avgPool2 x else x).height)
    (hW : 2 ∣ (if 1 < l.strides.1 then avgPool2 x else x).width) :
    PairInv (l.call x) := by
  constructor
  · show (l.conv2d_high_high.apply _).height = 2 * (l.conv2d_high_low.apply _).height
    rw [Conv2D.apply_height_same _ _ hp1, Conv2D.apply_height_same _ _ hp2,
      avgPool2_height]
    exact (Nat.mul_div_cancel' hH).symm
  · show (l.conv2d_high_high.apply _).width = 2 * (l.conv2d_high_low.apply _).width
    rw [Conv2D.apply_width_same _ _ hp1, Conv2D.apply_width_same _ _ hp2,
      avgPool2_width]
    exact (Nat.mul_div_cancel' hW).symm

/-! Concrete instances used by witnesses and counterexamples. -/

/-- An all-ones convolution kernel (stands in for externally initialised
he_normal weights). -/
def onesKernel : Kernel := fun _ _ _ _ => 1

/-- The all-zero bias vector. -/
def zeroBias : ℕ → ℚ := fun _ => 0

/-- A concrete 4x4 single-channel high-pathway input. -/
def fmHigh4 : FeatureMap :=
  { height := 4, width := 4, channels := 1, data := fun h w _ => (h : ℚ) + w }

/-- A concrete 2x2 single-channel low-pathway input. -/
def fmLow2 : FeatureMap :=
  { height := 2, width := 2, channels := 1, data := fun h w _ => (h : ℚ) * w }

/-- A concrete 8x8 single-channel input. -/
def fm8 : FeatureMap :=
  { height := 8, width := 8, channels := 1, data := fun h w _ => (h : ℚ) - w }

/-- A concrete initial layer: filters=2, alpha=1/2, defaults otherwise. -/
def initEx : OctConvInitialLayer :=
  OctConvInitialLayer.init 2 (3, 3) (1, 1) (1 / 2) Padding.same none false relu
    onesKernel onesKernel zeroBias zeroBias

/-- A concrete initial layer with filters=3, alpha=1/2. -/
def initEx3 : OctConvInitialLayer :=
  OctConvInitialLayer.init 3 (3, 3) (1, 1) (1 / 2) Padding.same none false relu
    onesKernel onesKernel zeroBias zeroBias

/-- A concrete initial layer with the mixed stride pair (1,2). -/
def initEx12 : OctConvInitialLayer :=
  OctConvInitialLayer.init 2 (3, 3) (1, 2) (1 / 2) Padding.same none false relu
    onesKernel onesKernel zeroBias zeroBias

/-- A concrete block layer: filters=2, alpha=1/2, stride (1,1). -/
def blockEx : OctConvBlockLayer :=
  OctConvBlockLayer.init 2 (3, 3) (1, 1) (1 / 2) Padding.same none false relu
    onesKernel onesKernel onesKernel onesKernel
    zeroBias zeroBias zeroBias zeroBias

/-- A concrete block layer with filters=3, alpha=1/2. -/
def blockEx3 : OctConvBlockLayer :=
  OctConvBlockLayer.init 3 (3, 3) (1, 1) (1 / 2) Padding.same none false relu
    onesKernel onesKernel onesKernel onesKernel
    zeroBias zeroBias zeroBias zeroBias

/-- A concrete final layer: filters=3, stride (1,1). -/
def finalEx : OctConvFinalLayer :=
  OctConvFinalLayer.init 3 (3, 3) (1, 1) Padding.same none false relu
    onesKernel onesKernel zeroBias zeroBias

/-! Claim theorems. -/

/-- C2: for every positive `filters` and every `alpha ∈ [0,1]`, both stages
that output a pathway pair — `OctConvInitialLayer` and `OctConvBlockLayer` —
are configured so that the low-pathway and high-pathway output channel counts
sum exactly to `filters`. -/
theorem octConv_C2_channel_sum (filters : ℕ) (ks s : ℕ × ℕ) (alpha : ℚ)
    (pad : Padding) (dil : Option (ℕ × ℕ)) (bias : Bool) (act : ℚ → ℚ)
    (w1 w2 w3 w4 : Kernel) (b1 b2 b3 b4 : ℕ → ℚ)
    (hf : 0 < filters) (h0 : 0 ≤ alpha) (h1 : alpha ≤ 1) :
    (OctConvInitialLayer.init filters ks s alpha pad dil bias act
        w1 w2 b1 b2).conv2d_high_low.filters +
      (OctConvInitialLayer.init filters ks s alpha pad dil bias act
        w1 w2 b1 b2).conv2d_high_high.filters = filters ∧
    (OctConvBlockLayer.init filters ks s alpha pad dil bias act
        w1 w2 w3 w4 b1 b2 b3 b4).conv2d_low_low.filters +
      (OctConvBlockLayer.init filters ks s alpha pad dil bias act
        w1 w2 w3 w4 b1 b2 b3 b4).conv2d_high_high.filters = filters := by
  constructor
  · show pyInt (alpha * filters) + ((filters : ℤ) - pyInt (alpha * filters)) = filters
    ring
  · show pyInt (alpha * filters) + ((filters : ℤ) - pyInt (alpha * filters)) = filters
    ring

theorem octConv_C2_channel_sum_witness :
    0 < 2 ∧ (0 : ℚ) ≤ 1 / 2 ∧ (1 / 2 : ℚ) ≤ 1 ∧
    (initEx.conv2d_high_low.filters + initEx.conv2d_high_high.filters = 2 ∧
      blockEx.conv2d_low_low.filters + blockEx.conv2d_high_high.filters = 2) :=
  ⟨by norm_num, by norm_num, by norm_num,
    octConv_C2_channel_sum 2 (3, 3) (1, 1) (1 / 2) Padding.same none false relu
      onesKernel onesKernel onesKernel onesKernel zeroBias zeroBias zeroBias
      zeroBias (by norm_num) (by norm_num) (by norm_num)⟩

/-- C4 as stated is false: the code computes the low-pathway channel count by
truncation `int(alpha * filters)`, not by rounding.  With `filters = 3` and
`alpha = 1/2` the layer allocates `int(1.5) = 1` low channel while
`round(1.5) = 2`. -/
theorem octConv_C4_counterexample :
    (initEx3.call fm8).1.channels ≠ round ((1 / 2 : ℚ) * 3) := by
  have h : (initEx3.call fm8).1.channels = 1 := by
    show pyInt ((1 / 2 : ℚ) * (3 : ℕ)) = 1
    rw [pyInt_eq_floor _ (by positivity)]
    norm_num
  rw [h]
  norm_num [round_eq]

/-- C4 (amended): for every positive `filters` and `alpha ∈ [0,1]`,
`OctConvInitialLayer`'s output channel counts satisfy
`low.channels + high.channels = filters` with
`low.channels = ⌊alpha * filters⌋` — truncation `int(alpha * filters)`
(equal to the floor since `alpha * filters ≥ 0`), not rounding. -/
theorem octConv_C4_amended (filters : ℕ) (ks s : ℕ × ℕ) (alpha : ℚ)
    (pad : Padding) (dil : Option (ℕ × ℕ)) (bias : Bool) (act : ℚ → ℚ)
    (w1 w2 : Kernel) (b1 b2 : ℕ → ℚ) (x : FeatureMap)
    (hf : 0 < filters) (h0 : 0 ≤ alpha) (h1 : alpha ≤ 1) :
    ((OctConvInitialLayer.init filters ks s alpha pad dil bias act
        w1 w2 b1 b2).call x).1.channels +
      ((OctConvInitialLayer.init filters ks s alpha pad dil bias act
        w1 w2 b1 b2).call x).2.channels = filters ∧
    ((OctConvInitialLayer.init filters ks s alpha pad dil bias act
        w1 w2 b1 b2).call x).1.channels = ⌊alpha * filters⌋ := by
  constructor
  · show pyInt (alpha * filters) + ((filters : ℤ) - pyInt (alpha * filters)) = filters
    ring
  · show pyInt (alpha * filters) = ⌊alpha * filters⌋
    exact pyInt_eq_floor _ (mul_nonneg h0 (Nat.cast_nonneg _))

theorem octConv_C4_amended_witness :
    0 < 3 ∧ (0 : ℚ) ≤ 1 / 2 ∧ (1 / 2 : ℚ) ≤ 1 ∧
    ((initEx3.call fm8).1.channels + (initEx3.call fm8).2.channels = 3 ∧
      (initEx3.call fm8).1.channels = ⌊(1 / 2 : ℚ) * (3 : ℕ)⌋) :=
  ⟨by norm_num, by norm_num, by norm_num,
    octConv_C4_amended 3 (3, 3) (1, 1) (1 / 2) Padding.same none false relu
      onesKernel onesKernel zeroBias zeroBias fm8
      (by norm_num) (by norm_num) (by norm_num)⟩

/-- C5 as stated is false: the four convolutions are coupled as claimed, but
their shared counts are `int(alpha * filters)` and
`filters - int(alpha * filters)`, not the exact products.  With
`filters = 3` and `alpha = 1/2`, `conv2d_low_low` is configured with
1 filter, while `alpha * filters = 3/2`. -/
theorem octConv_C5_counterexample :
    ¬ ((blockEx3.conv2d_low_low.filters : ℚ) = (1 / 2 : ℚ) * 3) := by
  have h : blockEx3.conv2d_low_low.filters = 1 := by
    show pyInt ((1 / 2 : ℚ) * (3 : ℕ)) = 1
    rw [pyInt_eq_floor _ (by positivity)]
    norm_num
  rw [h]
  norm_num

/-- C5 (amended): for every positive `filters` and `alpha ∈ [0,1]`,
`OctConvBlockLayer`'s four convolutions carry the coupled partition
`low_low_filters = high_low_filters = ⌊alpha * filters⌋` (the truncation
`int(alpha * filters)`) and
`high_high_filters = low_high_filters = filters - ⌊alpha * filters⌋`:
the two low-target paths always share one count and the two high-target
paths the other. -/
theorem octConv_C5_amended (filters : ℕ) (ks s : ℕ × ℕ) (alpha : ℚ)
    (pad : Padding) (dil : Option (ℕ × ℕ)) (bias : Bool) (act : ℚ → ℚ)
    (w1 w2 w3 w4 : Kernel) (b1 b2 b3 b4 : ℕ → ℚ)
    (hf : 0 < filters) (h0 : 0 ≤ alpha) (h1 : alpha ≤ 1) :
    (OctConvBlockLayer.init filters ks s alpha pad dil bias act
        w1 w2 w3 w4 b1 b2 b3 b4).conv2d_low_low.filters =
      (OctConvBlockLayer.init filters ks s alpha pad dil bias act
        w1 w2 w3 w4 b1 b2 b3 b4).conv2d_high_low.filters ∧
    (OctConvBlockLayer.init filters ks s alpha pad dil bias act
        w1 w2 w3 w4 b1 b2 b3 b4).conv2d_high_high.filters =
      (OctConvBlockLayer.init filters ks s alpha pad dil bias act
        w1 w2 w3 w4 b1 b2 b3 b4).conv2d_low_high.filters ∧
    (OctConvBlockLayer.init filters ks s alpha pad dil bias act
        w1 w2 w3 w4 b1 b2 b3 b4).conv2d_low_low.filters = ⌊alpha * filters⌋ ∧
    (OctConvBlockLayer.init filters ks s alpha pad dil bias act
        w1 w2 w3 w4 b1 b2 b3 b4).conv2d_high_high.filters =
      (filters : ℤ) - ⌊alpha * filters⌋ := by
  have hfl : pyInt (alpha * filters) = ⌊alpha * filters⌋ :=
    pyInt_eq_floor _ (mul_nonneg h0 (Nat.cast_nonneg _))
  exact ⟨rfl, rfl, hfl, by rw [show (OctConvBlockLayer.init filters ks s alpha
    pad dil bias act w1 w2 w3 w4 b1 b2 b3 b4).conv2d_high_high.filters =
    (filters : ℤ) - pyInt (alpha * filters) from rfl, hfl]⟩

theorem octConv_C5_amended_witness :
    0 < 3 ∧ (0 : ℚ) ≤ 1 / 2 ∧ (1 / 2 : ℚ) ≤ 1 ∧
    (blockEx3.conv2d_low_low.filters = blockEx3.conv2d_high_low.filters ∧
      blockEx3.conv2d_high_high.filters = blockEx3.conv2d_low_high.filters ∧
      blockEx3.conv2d_low_low.filters = ⌊(1 / 2 : ℚ) * (3 : ℕ)⌋ ∧
      blockEx3.conv2d_high_high.filters = (3 : ℤ) - ⌊(1 / 2 : ℚ) * (3 : ℕ)⌋) :=
  ⟨by norm_num, by norm_num, by norm_num,
    octConv_C5_amended 3 (3, 3) (1, 1) (1 / 2) Padding.same none false relu
      onesKernel onesKernel onesKernel onesKernel zeroBias zeroBias zeroBias
      zeroBias (by norm_num) (by norm_num) (by norm_num)⟩

/-- A concrete block layer with the out-of-range ratio alpha = 11/10. -/
def blockEx11 : OctConvBlockLayer :=
  OctConvBlockLayer.init 2 (3, 3) (1, 1) (11 / 10) Padding.same none false relu
    onesKernel onesKernel onesKernel onesKernel
    zeroBias zeroBias zeroBias zeroBias

/-- C10 as stated is false in one particular: alpha > 1 does not always
produce a strictly negative high-pathway filter count.  With `filters = 2`
and `alpha = 11/10`, `int(11/10 * 2) = int(2.2) = 2`, so
`high_high_filters = 2 - 2 = 0`: nonpositive, but not negative. -/
theorem octConv_C10_counterexample :
    (1 : ℚ) < 11 / 10 ∧ ¬ (blockEx11.conv2d_high_high.filters < 0) := by
  refine ⟨by norm_num, ?_⟩
  have h : blockEx11.conv2d_high_high.filters = 0 := by
    show (2 : ℤ) - pyInt ((11 / 10 : ℚ) * (2 : ℕ)) = 0
    rw [pyInt_eq_floor _ (by positivity)]
    norm_num
  rw [h]
  norm_num

/-- C10 (amended): the constructors of `OctConvInitialLayer` and
`OctConvBlockLayer` perform no validation of alpha: for any rational alpha
the channel partition is computed totally by the truncation
`int(alpha * filters)` and still sums to `filters`; alpha > 1 produces a
NONPOSITIVE high-pathway filter count handed to the convolution primitive
(strictly negative as soon as `alpha * filters ≥ filters + 1`), and any
alpha with `0 < alpha * filters < 1` allocates zero channels to the low
pathway. -/
theorem octConv_C10_amended (filters : ℕ) (ks s : ℕ × ℕ) (alpha : ℚ)
    (pad : Padding) (dil : Option (ℕ × ℕ)) (bias : Bool) (act : ℚ → ℚ)
    (w1 w2 w3 w4 : Kernel) (b1 b2 b3 b4 : ℕ → ℚ) (hf : 0 < filters) :
    ((OctConvInitialLayer.init filters ks s alpha pad dil bias act
        w1 w2 b1 b2).conv2d_high_low.filters +
      (OctConvInitialLayer.init filters ks s alpha pad dil bias act
        w1 w2 b1 b2).conv2d_high_high.filters = filters ∧
     (OctConvBlockLayer.init filters ks s alpha pad dil bias act
        w1 w2 w3 w4 b1 b2 b3 b4).conv2d_low_low.filters +
      (OctConvBlockLayer.init filters ks s alpha pad dil bias act
        w1 w2 w3 w4 b1 b2 b3 b4).conv2d_high_high.filters = filters) ∧
    (1 < alpha →
      (OctConvInitialLayer.init filters ks s alpha pad dil bias act
        w1 w2 b1 b2).conv2d_high_high.filters ≤ 0 ∧
      (OctConvBlockLayer.init filters ks s alpha pad dil bias act
        w1 w2 w3 w4 b1 b2 b3 b4).conv2d_high_high.filters ≤ 0) ∧
    ((filters : ℚ) + 1 ≤ alpha * filters →
      (OctConvInitialLayer.init filters ks s alpha pad dil bias act
        w1 w2 b1 b2).conv2d_high_high.filters < 0) ∧
    (0 < alpha * filters → alpha * filters < 1 →
      (OctConvInitialLayer.init filters ks s alpha pad dil bias act
        w1 w2 b1 b2).conv2d_high_low.filters = 0 ∧
      (OctConvBlockLayer.init filters ks s alpha pad dil bias act
        w1 w2 w3 w4 b1 b2 b3 b4).conv2d_low_low.filters = 0) := by
  refine ⟨⟨?_, ?_⟩, ?_, ?_, ?_⟩
  · show pyInt (alpha * filters) + ((filters : ℤ) - pyInt (alpha * filters)) = filters
    ring
  · show pyInt (alpha * filters) + ((filters : ℤ) - pyInt (alpha * filters)) = filters
    ring
  · intro ha
    have hnn : (0 : ℚ) ≤ alpha * filters :=
      mul_nonneg (le_trans zero_le_one ha.le) (Nat.cast_nonneg _)
    have hge : (filters : ℤ) ≤ pyInt (alpha * filters) := by
      rw [pyInt_eq_floor _ hnn]
      refine Int.le_floor.mpr ?_
      push_cast
      exact le_mul_of_one_le_left (Nat.cast_nonneg _) ha.le
    constructor
    · show (filters : ℤ) - pyInt (alpha * filters) ≤ 0
      omega
    · show (filters : ℤ) - pyInt (alpha * filters) ≤ 0
      omega
  · intro ha
    have hnn : (0 : ℚ) ≤ alpha * filters := by
      have : (0 : ℚ) ≤ (filters : ℚ) + 1 := by positivity
      linarith
    have hge : (filters : ℤ) + 1 ≤ pyInt (alpha * filters) := by
      rw [pyInt_eq_floor _ hnn]
      refine Int.le_floor.mpr ?_
      push_cast
      exact ha
    show (filters : ℤ) - pyInt (alpha * filters) < 0
    omega
  · intro hpos hlt
    have hz : pyInt (alpha * filters) = 0 := by
      rw [pyInt_eq_floor _ hpos.le]
      exact Int.floor_eq_zero_iff.mpr ⟨hpos.le, hlt⟩
    exact ⟨hz, hz⟩

theorem octConv_C10_amended_witness :
    0 < 2 ∧
    ((OctConvInitialLayer.init 2 (3, 3) (1, 1) (3 / 2) Padding.same none false
        relu onesKernel onesKernel zeroBias zeroBias).conv2d_high_low.filters +
      (OctConvInitialLayer.init 2 (3, 3) (1, 1) (3 / 2) Padding.same none false
        relu onesKernel onesKernel zeroBias zeroBias).conv2d_high_high.filters
        = 2 ∧
     (OctConvBlockLayer.init 2 (3, 3) (1, 1) (3 / 2) Padding.same none false
        relu onesKernel onesKernel onesKernel onesKernel zeroBias zeroBias
        zeroBias zeroBias).conv2d_low_low.filters +
      (OctConvBlockLayer.init 2 (3, 3) (1, 1) (3 / 2) Padding.same none false
        relu onesKernel onesKernel onesKernel onesKernel zeroBias zeroBias
        zeroBias zeroBias).conv2d_high_high.filters = 2) ∧
    (1 < (3 / 2 : ℚ) →
      (OctConvInitialLayer.init 2 (3, 3) (1, 1) (3 / 2) Padding.same none false
        relu onesKernel onesKernel zeroBias zeroBias).conv2d_high_high.filters
        ≤ 0 ∧
      (OctConvBlockLayer.init 2 (3, 3) (1, 1) (3 / 2) Padding.same none false
        relu onesKernel onesKernel onesKernel onesKernel zeroBias zeroBias
        zeroBias zeroBias).conv2d_high_high.filters ≤ 0) ∧
    (((2 : ℕ) : ℚ) + 1 ≤ (3 / 2 : ℚ) * (2 : ℕ) →
      (OctConvInitialLayer.init 2 (3, 3) (1, 1) (3 / 2) Padding.same none false
        relu onesKernel onesKernel zeroBias zeroBias).conv2d_high_high.filters
        < 0) ∧
    (0 < (3 / 2 : ℚ) * (2 : ℕ) → (3 / 2 : ℚ) * (2 : ℕ) < 1 →
      (OctConvInitialLayer.init 2 (3, 3) (1, 1) (3 / 2) Padding.same none false
        relu onesKernel onesKernel zeroBias zeroBias).conv2d_high_low.filters
        = 0 ∧
      (OctConvBlockLayer.init 2 (3, 3) (1, 1) (3 / 2) Padding.same none false
        relu onesKernel onesKernel onesKernel onesKernel zeroBias zeroBias
        zeroBias zeroBias).conv2d_low_low.filters = 0) :=
  ⟨by norm_num,
    octConv_C10_amended 2 (3, 3) (1, 1) (3 / 2) Padding.same none false relu
      onesKernel onesKernel onesKernel onesKernel zeroBias zeroBias zeroBias
      zeroBias (by norm_num)⟩

/-- C1: for every input PathwayPair `(low, high)` (with the resolution
invariant, stride 1 and 'same' padding as the repository configures its
blocks), `OctConvBlockLayer.call` computes the high-frequency output as the
elementwise sum of the same-resolution convolution of `high` (filters
`high_high_filters`, i.e. `conv2d_high_high`) and the 2x nearest-neighbour
upsampling of the convolution of `low` (`conv2d_low_high`), and the
low-frequency output as the elementwise sum of the same-resolution
convolution of `low` (`conv2d_low_low`) and the convolution of the 2x
average-pooled `high` (`conv2d_high_low`); it returns the pair in the order
`(low, high)`. -/
theorem octConv_C1_block_dataflow (l : OctConvBlockLayer)
    (low high : FeatureMap) (hs : l.strides.1 = 1)
    (hp1 : l.conv2d_high_high.padding = Padding.same)
    (hp2 : l.conv2d_low_high.padding = Padding.same)
    (hp3 : l.conv2d_low_low.padding = Padding.same)
    (hp4 : l.conv2d_high_low.padding = Padding.same)
    (hcH : l.conv2d_high_high.filters = l.conv2d_low_high.filters)
    (hcL : l.conv2d_low_low.filters = l.conv2d_high_low.filters)
    (hh : high.height = 2 * low.height) (hw : high.width = 2 * low.width) :
    l.call (low, high) =
      some
        ({ height := low.height, width := low.width
           channels := l.conv2d_low_low.filters
           data := fun h w c =>
             (l.conv2d_low_low.apply low).data h w c +
               (l.conv2d_high_low.apply (avgPool2 high)).data h w c },
         { height := high.height, width := high.width
           channels := l.conv2d_high_high.filters
           data := fun h w c =>
             (l.conv2d_high_high.apply high).data h w c +
               (upSample2 (l.conv2d_low_high.apply low)).data h w c }) :=
  block_call_stride1 l low high hs hp1 hp2 hp3 hp4 hcH hcL hh hw

theorem octConv_C1_block_dataflow_witness :
    blockEx.strides.1 = 1 ∧
    blockEx.conv2d_high_high.padding = Padding.same ∧
    blockEx.conv2d_low_high.padding = Padding.same ∧
    blockEx.conv2d_low_low.padding = Padding.same ∧
    blockEx.conv2d_high_low.padding = Padding.same ∧
    blockEx.conv2d_high_high.filters = blockEx.conv2d_low_high.filters ∧
    blockEx.conv2d_low_low.filters = blockEx.conv2d_high_low.filters ∧
    fmHigh4.height = 2 * fmLow2.height ∧ fmHigh4.width = 2 * fmLow2.width ∧
    blockEx.call (fmLow2, fmHigh4) =
      some
        ({ height := fmLow2.height, width := fmLow2.width
           channels := blockEx.conv2d_low_low.filters
           data := fun h w c =>
             (blockEx.conv2d_low_low.apply fmLow2).data h w c +
               (blockEx.conv2d_high_low.apply (avgPool2 fmHigh4)).data h w c },
         { height := fmHigh4.height, width := fmHigh4.width
           channels := blockEx.conv2d_high_high.filters
           data := fun h w c =>
             (blockEx.conv2d_high_high.apply fmHigh4).data h w c +
               (upSample2 (blockEx.conv2d_low_high.apply fmLow2)).data h w c }) :=
  ⟨rfl, rfl, rfl, rfl, rfl, rfl, rfl, rfl, rfl,
    octConv_C1_block_dataflow blockEx fmLow2 fmHigh4 rfl rfl rfl rfl rfl rfl
      rfl rfl rfl⟩

/-- C6: for every input PathwayPair `(low, high)` (with the resolution
invariant, stride 1 and the repository's 'same' padding),
`OctConvFinalLayer.call` returns the single FeatureMap
`Conv_same(high, filters) + Upsample2x(Conv_cross(low, filters))` — the same
cross/same structure as the block's high-frequency branch — at the high
pathway's full resolution with exactly `filters` channels. -/
theorem octConv_C6_final_merge (filters : ℕ) (ks s : ℕ × ℕ)
    (dil : Option (ℕ × ℕ)) (bias : Bool) (act : ℚ → ℚ) (w1 w2 : Kernel)
    (b1 b2 : ℕ → ℚ) (low high : FeatureMap) (hs : s.1 = 1)
    (hh : high.height = 2 * low.height) (hw : high.width = 2 * low.width) :
    (OctConvFinalLayer.init filters ks s Padding.same dil bias act
        w1 w2 b1 b2).call (low, high) =
      some
        { height := high.height, width := high.width
          channels := (filters : ℤ)
          data := fun h w c =>
            ((OctConvFinalLayer.init filters ks s Padding.same dil bias act
                w1 w2 b1 b2).conv2d_high_high.apply high).data h w c +
              (upSample2 ((OctConvFinalLayer.init filters ks s Padding.same dil
                bias act w1 w2 b1 b2).conv2d_low_high.apply low)).data h w c } :=
  final_call_stride1 _ low high hs rfl rfl rfl hh hw

theorem octConv_C6_final_merge_witness :
    (1, 1).1 = 1 ∧ fmHigh4.height = 2 * fmLow2.height ∧
    fmHigh4.width = 2 * fmLow2.width ∧
    finalEx.call (fmLow2, fmHigh4) =
      some
        { height := fmHigh4.height, width := fmHigh4.width
          channels := (3 : ℤ)
          data := fun h w c =>
            (finalEx.conv2d_high_high.apply fmHigh4).data h w c +
              (upSample2 (finalEx.conv2d_low_high.apply fmLow2)).data h w c } :=
  ⟨rfl, rfl, rfl,
    octConv_C6_final_merge 3 (3, 3) (1, 1) none false relu onesKernel
      onesKernel zeroBias zeroBias fmLow2 fmHigh4 rfl rfl rfl⟩

/-- C9: applying an `OctConvBlockLayer` constructed with `strides = (1, 1)`
(and the repository's 'same' padding and coupled filter partition) to a
PathwayPair satisfying the resolution invariant leaves the spatial
dimensions of both the low and the high pathway unchanged between input and
output. -/
theorem octConv_C9_stride1_shape (l : OctConvBlockLayer)
    (low high : FeatureMap) (hs : l.strides = (1, 1))
    (hp1 : l.conv2d_high_high.padding = Padding.same)
    (hp2 : l.conv2d_low_high.padding = Padding.same)
    (hp3 : l.conv2d_low_low.padding = Padding.same)
    (hp4 : l.conv2d_high_low.padding = Padding.same)
    (hcH : l.conv2d_high_high.filters = l.conv2d_low_high.filters)
    (hcL : l.conv2d_low_low.filters = l.conv2d_high_low.filters)
    (hh : high.height = 2 * low.height) (hw : high.width = 2 * low.width) :
    ∃ out, l.call (low, high) = some out ∧
      out.1.height = low.height ∧ out.1.width = low.width ∧
      out.2.height = high.height ∧ out.2.width = high.width :=
  ⟨_, block_call_stride1 l low high (by rw [hs]) hp1 hp2 hp3 hp4
      hcH hcL hh hw, rfl, rfl, rfl, rfl⟩

theorem octConv_C9_stride1_shape_witness :
    blockEx.strides = (1, 1) ∧
    fmHigh4.height = 2 * fmLow2.height ∧ fmHigh4.width = 2 * fmLow2.width ∧
    (∃ out, blockEx.call (fmLow2, fmHigh4) = some out ∧
      out.1.height = fmLow2.height ∧ out.1.width = fmLow2.width ∧
      out.2.height = fmHigh4.height ∧ out.2.width = fmHigh4.width) :=
  ⟨rfl, rfl, rfl,
    octConv_C9_stride1_shape blockEx fmLow2 fmHigh4 rfl rfl rfl rfl rfl rfl
      rfl rfl rfl⟩

/-- C3: for every valid input, the PathwayPair resolution invariant
`high.height = 2 * low.height ∧ high.width = 2 * low.width` holds after
every stage end-to-end: `OctConvInitialLayer.call` establishes it whenever
the (possibly pre-pooled) input has even spatial dimensions; any sequence of
well-formed `OctConvBlockLayer`s succeeds and preserves it; and the pair it
delivers to `OctConvFinalLayer` is accepted there (the final merge's shape
constraints are satisfied). -/
theorem octConv_C3_resolution_invariant :
    (∀ (l : OctConvInitialLayer) (x : FeatureMap),
      l.conv2d_high_high.padding = Padding.same →
      l.conv2d_high_low.padding = Padding.same →
      2 ∣ (if 1 < l.strides.1 then avgPool2 x else x).height →
      2 ∣ (if 1 < l.strides.1 then avgPool2 x else x).width →
      PairInv (l.call x)) ∧
    (∀ (bs : List OctConvBlockLayer) (p : FeatureMap × FeatureMap),
      (∀ b ∈ bs, BlockWF b) → PairInv p →
      ∃ q, runBlocks bs p = some q ∧ PairInv q) ∧
    (∀ (l : OctConvFinalLayer) (p : FeatureMap × FeatureMap),
      l.strides.1 = 1 → l.conv2d_high_high.padding = Padding.same →
      l.conv2d_low_high.padding = Padding.same →
      l.conv2d_high_high.filters = l.conv2d_low_high.filters →
      PairInv p → ∃ y, l.call p = some y) :=
  ⟨fun l x h1 h2 hH hW => OctConvInitialLayer.call_establishes_inv l x h1 h2 hH hW,
   fun bs p hwf hp => runBlocks_preserves_inv bs p hwf hp,
   fun l p hs h1 h2 hc hp =>
     ⟨_, final_call_stride1 l p.1 p.2 hs h1 h2 hc hp.1 hp.2⟩⟩

theorem octConv_C3_resolution_invariant_witness :
    PairInv (initEx.call fm8) ∧
    (∃ q, runBlocks [blockEx] (fmLow2, fmHigh4) = some q ∧ PairInv q) ∧
    (∃ y, finalEx.call (fmLow2, fmHigh4) = some y) :=
  ⟨octConv_C3_resolution_invariant.1 initEx fm8 rfl rfl (by decide) (by decide),
   octConv_C3_resolution_invariant.2.1 [blockEx] (fmLow2, fmHigh4)
     (by
       intro b hb
       rw [List.mem_singleton] at hb
       subst hb
       exact ⟨rfl, rfl, rfl, rfl, rfl, rfl, rfl⟩)
     ⟨rfl, rfl⟩,
   octConv_C3_resolution_invariant.2.2 finalEx (fmLow2, fmHigh4) rfl rfl rfl
     rfl ⟨rfl, rfl⟩⟩

/-- C7: the pathway ordering convention holds end to end:
`OctConvInitialLayer.call` returns `(low, high)` — the first component is
the average-pooled-then-convolved half-resolution pathway, the second the
full-resolution one; `OctConvBlockLayer.call` and `OctConvFinalLayer.call`
unpack their input pair as `inputs[0] -> low`, `inputs[1] -> high` — the
first input feeds the low-frequency paths (`conv2d_low_low`,
`conv2d_low_high` + upsample) and the second the high-frequency paths
(`conv2d_high_high`, average-pool + `conv2d_high_low`); and
`OctConvBlockLayer.call` returns its output pair in the order
`(low, high)`. -/
theorem octConv_C7_pair_order :
    (∀ (l : OctConvInitialLayer) (x : FeatureMap), l.strides.1 = 1 →
      l.call x =
        (l.conv2d_high_low.apply (avgPool2 x), l.conv2d_high_high.apply x)) ∧
    (∀ (l : OctConvBlockLayer) (low high : FeatureMap),
      l.strides.1 = 1 →
      l.conv2d_high_high.padding = Padding.same →
      l.conv2d_low_high.padding = Padding.same →
      l.conv2d_low_low.padding = Padding.same →
      l.conv2d_high_low.padding = Padding.same →
      l.conv2d_high_high.filters = l.conv2d_low_high.filters →
      l.conv2d_low_low.filters = l.conv2d_high_low.filters →
      high.height = 2 * low.height → high.width = 2 * low.width →
      l.call (low, high) =
        some
          ({ height := low.height, width := low.width
             channels := l.conv2d_low_low.filters
             data := fun h w c =>
               (l.conv2d_low_low.apply low).data h w c +
                 (l.conv2d_high_low.apply (avgPool2 high)).data h w c },
           { height := high.height, width := high.width
             channels := l.conv2d_high_high.filters
             data := fun h w c =>
               (l.conv2d_high_high.apply high).data h w c +
                 (upSample2 (l.conv2d_low_high.apply low)).data h w c })) ∧
    (∀ (l : OctConvFinalLayer) (low high : FeatureMap),
      l.strides.1 = 1 →
      l.conv2d_high_high.padding = Padding.same →
      l.conv2d_low_high.padding = Padding.same →
      l.conv2d_high_high.filters = l.conv2d_low_high.filters →
      high.height = 2 * low.height → high.width = 2 * low.width →
      l.call (low, high) =
        some
          { height := high.height, width := high.width
            channels := l.conv2d_high_high.filters
            data := fun h w c =>
              (l.conv2d_high_high.apply high).data h w c +
                (upSample2 (l.conv2d_low_high.apply low)).data h w c }) :=
  ⟨fun l x hs => initial_call_stride1 l x hs,
   fun l low high hs hp1 hp2 hp3 hp4 hcH hcL hh hw =>
     block_call_stride1 l low high hs hp1 hp2 hp3 hp4 hcH hcL hh hw,
   fun l low high hs hp1 hp2 hc hh hw =>
     final_call_stride1 l low high hs hp1 hp2 hc hh hw⟩

theorem octConv_C7_pair_order_witness :
    (initEx.call fm8 =
      (initEx.conv2d_high_low.apply (avgPool2 fm8),
       initEx.conv2d_high_high.apply fm8)) ∧
    (blockEx.call (fmLow2, fmHigh4) =
      some
        ({ height := fmLow2.height, width := fmLow2.width
           channels := blockEx.conv2d_low_low.filters
           data := fun h w c =>
             (blockEx.conv2d_low_low.apply fmLow2).data h w c +
               (blockEx.conv2d_high_low.apply (avgPool2 fmHigh4)).data h w c },
         { height := fmHigh4.height, width := fmHigh4.width
           channels := blockEx.conv2d_high_high.filters
           data := fun h w c =>
             (blockEx.conv2d_high_high.apply fmHigh4).data h w c +
               (upSample2 (blockEx.conv2d_low_high.apply fmLow2)).data h w c })) ∧
    (finalEx.call (fmLow2, fmHigh4) =
      some
        { height := fmHigh4.height, width := fmHigh4.width
          channels := finalEx.conv2d_high_high.filters
          data := fun h w c =>
            (finalEx.conv2d_high_high.apply fmHigh4).data h w c +
              (upSample2 (finalEx.conv2d_low_high.apply fmLow2)).data h w c }) :=
  ⟨octConv_C7_pair_order.1 initEx fm8 rfl,
   octConv_C7_pair_order.2.1 blockEx fmLow2 fmHigh4 rfl rfl rfl rfl rfl rfl
     rfl rfl rfl,
   octConv_C7_pair_order.2.2 finalEx fmLow2 fmHigh4 rfl rfl rfl rfl rfl rfl⟩

/-- C8 as stated is false: the stride pair is not treated uniformly.  Each
layer consults only `strides[0]`.  The concrete initial layer with
`strides = (1, 2)` — a pair of positive integers containing a stride
greater than 1 — applies no average-pool pre-step at all: its
high-frequency output keeps the full 8-pixel height of the input, where one
2x average-pool pre-step would leave height 4. -/
theorem octConv_C8_counterexample :
    1 < initEx12.strides.2 ∧ (initEx12.call fm8).2.height = 8 ∧
      (avgPool2 fm8).height = 4 := by
  refine ⟨by decide, ?_, rfl⟩
  show (initEx12.conv2d_high_high.apply fm8).height = 8
  rw [Conv2D.apply_height_same _ _ rfl]
  rfl

/-- C8 (amended): the stride pre-step is keyed on `strides[0]` alone, and
`strides[1]` is ignored.  Whenever `strides[0] > 1`, each layer applies
exactly one 2x average-pool downsample pre-step before any convolution — to
the single input of `OctConvInitialLayer`, and identically to both incoming
pathways of `OctConvBlockLayer` and `OctConvFinalLayer`; whenever
`strides[0] == 1`, no pre-step is applied: every layer behaves exactly like
its stride-(1,1) twin applied to the (conditionally) pre-pooled input. -/
theorem octConv_C8_amended (filters : ℕ) (ks s : ℕ × ℕ) (alpha : ℚ)
    (pad : Padding) (dil : Option (ℕ × ℕ)) (bias : Bool) (act : ℚ → ℚ)
    (w1 w2 w3 w4 : Kernel) (b1 b2 b3 b4 : ℕ → ℚ) (x : FeatureMap)
    (p : FeatureMap × FeatureMap) :
    (OctConvInitialLayer.init filters ks s alpha pad dil bias act
        w1 w2 b1 b2).call x =
      (OctConvInitialLayer.init filters ks (1, 1) alpha pad dil bias act
        w1 w2 b1 b2).call (if 1 < s.1 then avgPool2 x else x) ∧
    (OctConvBlockLayer.init filters ks s alpha pad dil bias act
        w1 w2 w3 w4 b1 b2 b3 b4).call p =
      (OctConvBlockLayer.init filters ks (1, 1) alpha pad dil bias act
        w1 w2 w3 w4 b1 b2 b3 b4).call
        (if 1 < s.1 then (avgPool2 p.1, avgPool2 p.2) else p) ∧
    (OctConvFinalLayer.init filters ks s pad dil bias act
        w1 w2 b1 b2).call p =
      (OctConvFinalLayer.init filters ks (1, 1) pad dil bias act
        w1 w2 b1 b2).call (if 1 < s.1 then (avgPool2 p.1, avgPool2 p.2) else p) := by
  by_cases h : 1 < s.1
  · refine ⟨?_, ?_, ?_⟩ <;>
      simp [OctConvInitialLayer.call, OctConvBlockLayer.call,
        OctConvFinalLayer.call, OctConvInitialLayer.init,
        OctConvBlockLayer.init, OctConvFinalLayer.init, h]
  · refine ⟨?_, ?_, ?_⟩ <;>
      simp [OctConvInitialLayer.call, OctConvBlockLayer.call,
        OctConvFinalLayer.call, OctConvInitialLayer.init,
        OctConvBlockLayer.init, OctConvFinalLayer.init, h]
